import Mathlib

/-!
Shallow embedding of `pycaret/internal/display/display_backend.py`.

The module defines a display-backend abstraction: `SilentBackend`,
`CLIBackend`, `JupyterBackend`, `ColabBackend` (extending Jupyter), a
registry dict `backends` mapping backend ids to constructors, and a
selection function `detect_backend`.

Displayable Python values are modelled by `PyVal`; the observable effects
of `display`/`clear_display`/`clear_output` are modelled as a value of an
action type (CLI) or as explicit state passing (notebook family).
-/

/-- A pandas DataFrame, abstracted to its row and column counts
(all the source inspects is `.empty` and identity of the data). -/
structure Frame where
  rows : Nat
  cols : Nat
deriving DecidableEq, Repr

/-- pandas `DataFrame.empty`: true when any axis has length 0. -/
def Frame.empty (f : Frame) : Bool := f.rows == 0 || f.cols == 0

/-- A Python value as seen by the display backends:
`pyNone` is Python `None`; `frame` a `pd.DataFrame`; `series` a
`pd.Series` (abstracted to its length); `styler` a
`pandas.io.formats.style.Styler` whose `.data` is the wrapped frame;
`html f` is `IPython.display.HTML(styler.to_html())`, the rendered-markup
form of the frame `f`; `obj tag b` is any other object, where `b` records
whether `hasattr(obj, "show")` holds. -/
inductive PyVal where
  | pyNone
  | frame (f : Frame)
  | series (len : Nat)
  | styler (f : Frame)
  | html (f : Frame)
  | obj (tag : Nat) (canShow : Bool)
deriving DecidableEq, Repr

/-- `obj is None`. -/
def PyVal.isNone : PyVal → Bool
  | .pyNone => true
  | _ => false

/-- `hasattr(obj, "show")`: pandas DataFrame/Series/Styler and IPython
HTML objects expose no `show` attribute; an arbitrary object may. -/
def PyVal.hasShow : PyVal → Bool
  | .obj _ b => b
  | _ => false

/-- An empty tabular container: a DataFrame or Series whose
row/column count is zero. -/
def PyVal.isEmptyTabular : PyVal → Bool
  | .frame f => f.empty
  | .series n => n == 0
  | _ => false

/-- The `isinstance(obj, Styler)` unwrap step: a Styler is replaced by its
underlying `.data` frame, everything else is unchanged. -/
def unwrapStyler : PyVal → PyVal
  | .styler f => .frame f
  | v => v

/-- `CLIBackend._handle_input`: unwrap a Styler to its `.data`, then map an
empty Series/DataFrame to `None`; all other values pass through. -/
def cli_handle_input (v : PyVal) : PyVal :=
  let v : PyVal := match v with
    | .styler f => .frame f
    | w => w
  match v with
  | .frame f => if f.empty then .pyNone else .frame f
  | .series n => if n == 0 then .pyNone else .series n
  | w => w

/-- The observable effect of one `CLIBackend.display` call:
either `obj.show()` or `pprint(obj)` on the normalized value. -/
inductive CLIAction where
  | showCall (v : PyVal)
  | pprintOut (v : PyVal)
deriving DecidableEq, Repr

/-- `CLIBackend.display`: normalize via `_handle_input`; if the result is
not `None`, defer to `obj.show()` when available, else `pprint(obj)`.
Returns `none` when nothing is printed. -/
def cliDisplay (v : PyVal) : Option CLIAction :=
  let v := cli_handle_input v
  if v.isNone then Option.none
  else if v.hasShow then some (.showCall v) else some (.pprintOut v)

/-- `SilentBackend.display` is `pass`: no output ever. -/
def silentDisplay (_ : PyVal) : Option CLIAction := Option.none

/-! ## Notebook-family backends (`JupyterBackend`, `ColabBackend`) -/

/-- An IPython `DisplayHandle`, identified by the id it was created with. -/
structure DH where
  hid : Nat
deriving DecidableEq, Repr

/-- One update pushed into a display handle: `DisplayHandle.update()` with
no argument (blank) or `DisplayHandle.update(obj)`. -/
inductive Update where
  | blank
  | push (v : PyVal)
deriving DecidableEq, Repr

/-- The state of a `JupyterBackend`/`ColabBackend` instance together with
the host output surface it touches: `displayRef` is `self._display_ref`,
`nextId` the supply of fresh handle ids (counting handles ever created by
`display(display_id=True)`), `pushes` the log of updates pushed into
handles, and `cellClears` the number of `clear_output(wait=True)` calls. -/
structure NBState where
  displayRef : Option DH
  nextId : Nat
  pushes : List (Nat × Update)
  cellClears : Nat
deriving DecidableEq, Repr

/-- A freshly constructed backend: `self._display_ref = None`. -/
def initNBState : NBState := ⟨Option.none, 0, [], 0⟩

/-- `if not self._display_ref: self._display_ref = display(display_id=True)`:
acquire a fresh handle only when none is stored. -/
def acquireHandle (s : NBState) : NBState :=
  if s.displayRef.isNone then
    { s with displayRef := some ⟨s.nextId⟩, nextId := s.nextId + 1 }
  else s

/-- `JupyterBackend._handle_input`: identity. -/
def handleInputJupyter (v : PyVal) : PyVal := v

/-- `ColabBackend._handle_input`: a Styler is rendered to
`HTML(obj.to_html())`; everything else passes through. -/
def handleInputColab : PyVal → PyVal
  | .styler f => .html f
  | v => v

/-- `JupyterBackend.display` (shared by `ColabBackend`, which only
overrides `_handle_input`, passed here as `hi`): ensure a handle exists,
normalize, and push the value when it is not `None`. -/
def nbDisplay (hi : PyVal → PyVal) (s : NBState) (v : PyVal) : NBState :=
  let s := acquireHandle s
  let v := hi v
  if v.isNone then s
  else
    match s.displayRef with
    | some hd => { s with pushes := s.pushes ++ [(hd.hid, Update.push v)] }
    | Option.none => s

/-- `JupyterBackend.clear_display`: if a handle exists, push an empty
update into it (`self._display_ref.update()`). -/
def nbClearDisplay (s : NBState) : NBState :=
  match s.displayRef with
  | some hd => { s with pushes := s.pushes ++ [(hd.hid, Update.blank)] }
  | Option.none => s

/-- `JupyterBackend.clear_output`: `clear_output(wait=True)` clears the
whole cell; it touches neither `self._display_ref` nor any handle. -/
def nbClearOutput (s : NBState) : NBState :=
  { s with cellClears := s.cellClears + 1 }

/-- One public operation on a notebook-family backend instance. -/
inductive NBOp where
  | disp (v : PyVal)
  | clearDisp
  | clearOut
deriving DecidableEq, Repr

/-- Run one operation. -/
def nbStep (hi : PyVal → PyVal) (s : NBState) : NBOp → NBState
  | .disp v => nbDisplay hi s v
  | .clearDisp => nbClearDisplay s
  | .clearOut => nbClearOutput s

/-- Run a sequence of operations. -/
def nbRun (hi : PyVal → PyVal) (s : NBState) : List NBOp → NBState
  | [] => s
  | op :: ops => nbRun hi (nbStep hi s op) ops

/-- Does the sequence contain at least one `display` call? -/
def hasDisp : List NBOp → Bool
  | [] => false
  | .disp _ :: _ => true
  | _ :: ops => hasDisp ops

/-- The last update pushed into handle `h`, if any. -/
def lastUpdate : List (Nat × Update) → Nat → Option Update
  | [], _ => Option.none
  | (h1, u) :: rest, h =>
    match lastUpdate rest h with
    | some u1 => some u1
    | Option.none => if h1 == h then some u else Option.none

/-- The content currently shown by the instance's handle: the value of the
last non-blank update pushed into the stored handle, if any. -/
def shownNow (s : NBState) : Option PyVal :=
  match s.displayRef with
  | some hd =>
    match lastUpdate s.pushes hd.hid with
    | some (Update.push v) => some v
    | _ => Option.none
  | Option.none => Option.none

/-- The handle-discipline invariant of a notebook-family instance started
fresh: the stored reference is either absent (no handle created yet) or
the very first handle, and every update ever pushed targeted handle 0. -/
def goodNB (s : NBState) : Prop :=
  (s.displayRef = Option.none ∧ s.nextId = 0
    ∨ s.displayRef = some ⟨0⟩ ∧ s.nextId = 1)
  ∧ ∀ p ∈ s.pushes, p.1 = 0

/-! ## Registry and detector -/

/-- The four concrete backend classes (as constructors). -/
inductive BackendKind where
  | cli | jupyter | colab | silent
deriving DecidableEq, Repr

/-- The class attribute `id` of each backend. -/
def BackendKind.id : BackendKind → String
  | .cli => "cli"
  | .jupyter => "jupyter"
  | .colab => "colab"
  | .silent => "silent"

/-- `backends = [CLIBackend, JupyterBackend, ColabBackend, SilentBackend]`. -/
def backendsList : List BackendKind :=
  [.cli, .jupyter, .colab, .silent]

/-- `backends = {b.id: b for b in backends}`, as an association list. -/
def backendsMap : List (String × BackendKind) :=
  backendsList.map (fun b => (b.id, b))

/-- The registry's key set, in insertion order. -/
def registryKeys : List String := backendsMap.map Prod.fst

/-- `backends.get(backend_id, None)`. -/
def lookupBackend (t : String) : Option BackendKind :=
  (backendsMap.find? (fun p => decide (p.1 = t))).map Prod.snd

/-- `needle in hay` on character lists (Python substring containment). -/
def listContains (hay needle : List Char) : Bool :=
  (List.range (hay.length + 1)).any (fun i => needle.isPrefixOf (hay.drop i))

/-- `needle in hay` for strings. -/
def strContains (hay needle : String) : Bool :=
  listContains hay.data needle.data

/-- Outcome of `get_ipython()` inside the `try` block: the call raises,
returns `None` (so `assert ipython` raises), or returns a shell whose
class name is `className`. -/
inductive IPythonResult where
  | raises
  | noShell
  | shell (className : String)
deriving DecidableEq, Repr

/-- The `backend is None` branch of `detect_backend`: on any exception
`class_name` stays `""` and `is_notebook` is `False`; otherwise
`is_notebook = "Terminal" not in class_name`. Non-notebook resolves to
CLI; then `"google.colab" in class_name` picks Colab over Jupyter. -/
def detectEnv (env : IPythonResult) : BackendKind :=
  let p : String × Bool :=
    match env with
    | .raises => ("", false)
    | .noShell => ("", false)
    | .shell cn => (cn, !(strContains cn "Terminal"))
  if !p.2 then .cli
  else if strContains p.1 "google.colab" then .colab
  else .jupyter

/-- A Python object passed as the `backend` argument that is neither
`None` nor a `str`: its `type(...)` repr, whether it is an
`isinstance(..., DisplayBackend)`, and which of the three display methods
it happens to implement (structurally). -/
structure PyObject where
  typeName : String
  isInstanceOfDisplayBackend : Bool
  hasDisplayMethod : Bool
  hasClearDisplayMethod : Bool
  hasClearOutputMethod : Bool
deriving DecidableEq, Repr

/-- The `backend` argument of `detect_backend`: `None`, a string, or any
other object. -/
inductive Selector where
  | pyNone
  | str (s : String)
  | objSel (o : PyObject)
deriving DecidableEq, Repr

/-- Outcome of `detect_backend`: a freshly constructed backend of some
class, the given instance passed through, or a raised error. -/
inductive DetectResult where
  | ok (b : BackendKind)
  | passThrough (o : PyObject)
  | valueError (msg : String)
  | typeError (msg : String)
deriving DecidableEq, Repr

/-- Python `repr` of a list of strings, as produced by
`f"{list(backends.keys())}"`. -/
def pyListRepr (l : List String) : String :=
  "[" ++ String.intercalate ", " (l.map (fun s => "'" ++ s ++ "'")) ++ "]"

/-- The `ValueError` message for an unknown backend id. -/
def valueErrorMsg (bid : String) : String :=
  "Wrong backend id. Got " ++ bid ++ ", expected one of " ++
    pyListRepr registryKeys ++ "."

/-- The `TypeError` message for a selector of the wrong type. -/
def typeErrorMsg (o : PyObject) : String :=
  "Wrong backend type. Expected None, str or DisplayBackend, got " ++
    o.typeName ++ "."

/-- Python `str.lower()`: character-wise lowercasing (the registry keys
are ASCII, so ASCII case folding is the relevant behavior). -/
def pyLower (s : String) : String := ⟨s.data.map Char.toLower⟩

/-- `detect_backend(backend)`. -/
def detect_backend (env : IPythonResult) : Selector → DetectResult
  | .pyNone => .ok (detectEnv env)
  | .str s =>
    let bid := pyLower s
    match lookupBackend bid with
    | some b => .ok b
    | Option.none => .valueError (valueErrorMsg bid)
  | .objSel o =>
    if o.isInstanceOfDisplayBackend then .passThrough o
    else .typeError (typeErrorMsg o)

/-! ## Helper lemmas -/

theorem drop_length_add (h t : List Char) (i : Nat) :
    (h ++ t).drop (h.length + i) = t.drop i := by
  induction h with
  | nil => simp
  | cons c h ih => simp [Nat.succ_add, ih]

theorem listContains_append_left (h t n : List Char)
    (hc : listContains h n = true) : listContains (h ++ t) n = true := by
  unfold listContains at hc ⊢
  rw [List.any_eq_true] at hc ⊢
  obtain ⟨i, hi, hp⟩ := hc
  rw [List.mem_range] at hi
  refine ⟨i, ?_, ?_⟩
  · rw [List.mem_range, List.length_append]
    omega
  · rw [List.isPrefixOf_iff_prefix] at hp ⊢
    rcases hp with ⟨u, hu⟩
    rcases Nat.lt_or_ge i (h.length + 1) with _ | _
    · have hdrop : (h ++ t).drop i = h.drop i ++ t := by
        rw [List.drop_append_eq_append_drop]
        have : i - h.length = 0 := by omega
        rw [this]
        rfl
      rw [hdrop, ← hu, List.append_assoc]
      exact ⟨u ++ t, rfl⟩
    · omega

theorem listContains_append_right (h t n : List Char)
    (hc : listContains t n = true) : listContains (h ++ t) n = true := by
  unfold listContains at hc ⊢
  rw [List.any_eq_true] at hc ⊢
  obtain ⟨i, hi, hp⟩ := hc
  rw [List.mem_range] at hi
  refine ⟨h.length + i, ?_, ?_⟩
  · rw [List.mem_range, List.length_append]
    omega
  · rw [drop_length_add]
    exact hp

theorem lastUpdate_append_same (l : List (Nat × Update)) (h : Nat) (u : Update) :
    lastUpdate (l ++ [(h, u)]) h = some u := by
  induction l with
  | nil => simp [lastUpdate]
  | cons p l ih =>
    obtain ⟨h1, u1⟩ := p
    simp [lastUpdate, ih]

theorem lookupBackend_mem (t : String) (h : t ∈ registryKeys) :
    ∃ b, lookupBackend t = some b ∧ BackendKind.id b = t := by
  simp only [registryKeys, backendsMap, backendsList, List.map, BackendKind.id,
    List.mem_cons, List.not_mem_nil, or_false] at h
  rcases h with h | h | h | h <;> subst h
  · exact ⟨.cli, by decide, by decide⟩
  · exact ⟨.jupyter, by decide, by decide⟩
  · exact ⟨.colab, by decide, by decide⟩
  · exact ⟨.silent, by decide, by decide⟩

theorem lookupBackend_not_mem (t : String) (h : ¬ t ∈ registryKeys) :
    lookupBackend t = Option.none := by
  have hf : backendsMap.find? (fun p => decide (p.1 = t)) = Option.none := by
    rw [List.find?_eq_none]
    intro x hx
    simp only [decide_eq_true_eq]
    intro hxt
    exact h (hxt ▸ List.mem_map_of_mem Prod.fst hx)
  simp [lookupBackend, hf]

theorem acquireHandle_of_some (s : NBState) (hd : DH)
    (h : s.displayRef = some hd) : acquireHandle s = s := by
  simp [acquireHandle, h]

theorem acquireHandle_of_none (s : NBState) (h : s.displayRef = Option.none) :
    acquireHandle s
      = { s with displayRef := some ⟨s.nextId⟩, nextId := s.nextId + 1 } := by
  simp [acquireHandle, h]

theorem acquireHandle_isSome (s : NBState) :
    (acquireHandle s).displayRef.isSome = true := by
  cases h : s.displayRef with
  | none => simp [acquireHandle, h]
  | some hd => simp [acquireHandle, h]

theorem nbDisplay_ref (hi : PyVal → PyVal) (s : NBState) (v : PyVal) :
    (nbDisplay hi s v).displayRef = (acquireHandle s).displayRef
    ∧ (nbDisplay hi s v).nextId = (acquireHandle s).nextId := by
  simp only [nbDisplay]
  split
  · exact ⟨rfl, rfl⟩
  · split
    · exact ⟨rfl, rfl⟩
    · exact ⟨rfl, rfl⟩

theorem nbClearDisplay_ref (s : NBState) :
    (nbClearDisplay s).displayRef = s.displayRef
    ∧ (nbClearDisplay s).nextId = s.nextId := by
  unfold nbClearDisplay
  split
  · exact ⟨rfl, rfl⟩
  · exact ⟨rfl, rfl⟩

theorem nbClearOutput_ref (s : NBState) :
    (nbClearOutput s).displayRef = s.displayRef
    ∧ (nbClearOutput s).nextId = s.nextId :=
  ⟨rfl, rfl⟩

theorem nbStep_ref_of_some (hi : PyVal → PyVal) (s : NBState) (op : NBOp)
    (h : s.displayRef.isSome = true) :
    (nbStep hi s op).displayRef = s.displayRef
    ∧ (nbStep hi s op).nextId = s.nextId := by
  cases op with
  | disp v =>
    obtain ⟨hd, hhd⟩ := Option.isSome_iff_exists.mp h
    have hacq := acquireHandle_of_some s hd hhd
    have hr := nbDisplay_ref hi s v
    rw [hacq] at hr
    exact hr
  | clearDisp => exact nbClearDisplay_ref s
  | clearOut => exact nbClearOutput_ref s

theorem nbRun_ref_of_some (hi : PyVal → PyVal) (ops : List NBOp) :
    ∀ s : NBState, s.displayRef.isSome = true →
      (nbRun hi s ops).displayRef = s.displayRef
      ∧ (nbRun hi s ops).nextId = s.nextId := by
  induction ops with
  | nil => exact fun s _ => ⟨rfl, rfl⟩
  | cons op ops ih =>
    intro s h
    have hstep := nbStep_ref_of_some hi s op h
    have h2 : (nbStep hi s op).displayRef.isSome = true := by
      rw [hstep.1]; exact h
    have hrun := ih (nbStep hi s op) h2
    exact ⟨hrun.1.trans hstep.1, hrun.2.trans hstep.2⟩

theorem nbRun_from_fresh (hi : PyVal → PyVal) (ops : List NBOp) :
    ∀ s : NBState, s.displayRef = Option.none →
      (nbRun hi s ops).displayRef
          = (if hasDisp ops then some ⟨s.nextId⟩ else Option.none)
      ∧ (nbRun hi s ops).nextId
          = (if hasDisp ops then s.nextId + 1 else s.nextId) := by
  induction ops with
  | nil => intro s h; simp [nbRun, hasDisp, h]
  | cons op ops ih =>
    intro s h
    cases op with
    | disp v =>
      have hacq := acquireHandle_of_none s h
      have hr := nbDisplay_ref hi s v
      rw [hacq] at hr
      have hsome : (nbDisplay hi s v).displayRef.isSome = true := by
        rw [hr.1]; rfl
      have hrun := nbRun_ref_of_some hi ops (nbDisplay hi s v) hsome
      constructor
      · show (nbRun hi (nbDisplay hi s v) ops).displayRef = _
        rw [hrun.1, hr.1]
        simp [hasDisp]
      · show (nbRun hi (nbDisplay hi s v) ops).nextId = _
        rw [hrun.2, hr.2]
        simp [hasDisp]
    | clearDisp =>
      have hcd : nbClearDisplay s = s := by
        unfold nbClearDisplay
        rw [h]
      have hih := ih s h
      have heq : nbRun hi s (NBOp.clearDisp :: ops) = nbRun hi s ops := by
        show nbRun hi (nbClearDisplay s) ops = nbRun hi s ops
        rw [hcd]
      rw [heq]
      simpa [hasDisp] using hih
    | clearOut =>
      have h2 : (nbClearOutput s).displayRef = Option.none := h
      have hih := ih (nbClearOutput s) h2
      show (nbRun hi (nbClearOutput s) ops).displayRef = _ ∧ _
      simpa [hasDisp, nbClearOutput] using hih

theorem goodNB_init : goodNB initNBState := by
  constructor
  · left; exact ⟨rfl, rfl⟩
  · intro p hp; cases hp

theorem goodNB_step (hi : PyVal → PyVal) (s : NBState) (op : NBOp)
    (h : goodNB s) : goodNB (nbStep hi s op) := by
  obtain ⟨href, hpush⟩ := h
  cases op with
  | disp v =>
    show goodNB (nbDisplay hi s v)
    rcases href with ⟨h1, h2⟩ | ⟨h1, h2⟩
    · have hacq := acquireHandle_of_none s h1
      simp only [nbDisplay, hacq, h2]
      split
      · exact ⟨Or.inr ⟨rfl, rfl⟩, hpush⟩
      · refine ⟨Or.inr ⟨rfl, rfl⟩, ?_⟩
        intro p hp
        rcases List.mem_append.mp hp with hp | hp
        · exact hpush p hp
        · simp only [List.mem_singleton] at hp
          subst hp
          rfl
    · have hacq := acquireHandle_of_some s ⟨0⟩ h1
      simp only [nbDisplay, hacq, h1]
      split
      · exact ⟨Or.inr ⟨h1, h2⟩, hpush⟩
      · refine ⟨Or.inr ⟨rfl, h2⟩, ?_⟩
        intro p hp
        rcases List.mem_append.mp hp with hp | hp
        · exact hpush p hp
        · simp only [List.mem_singleton] at hp
          subst hp
          rfl
  | clearDisp =>
    show goodNB (nbClearDisplay s)
    rcases href with ⟨h1, h2⟩ | ⟨h1, h2⟩
    · simp only [nbClearDisplay, h1]
      exact ⟨Or.inl ⟨h1, h2⟩, hpush⟩
    · simp only [nbClearDisplay, h1]
      refine ⟨Or.inr ⟨rfl, h2⟩, ?_⟩
      intro p hp
      rcases List.mem_append.mp hp with hp | hp
      · exact hpush p hp
      · simp only [List.mem_singleton] at hp
        subst hp
        rfl
  | clearOut =>
    exact ⟨href, hpush⟩

theorem goodNB_run (hi : PyVal → PyVal) (ops : List NBOp) :
    ∀ s : NBState, goodNB s → goodNB (nbRun hi s ops) := by
  induction ops with
  | nil => exact fun s h => h
  | cons op ops ih => exact fun s h => ih _ (goodNB_step hi s op h)

theorem handleInputColab_isNone (v : PyVal) :
    (handleInputColab v).isNone = v.isNone := by
  cases v <;> rfl

theorem nbDisplay_of_isNone (hi : PyVal → PyVal) (s : NBState) (v : PyVal)
    (h0 : (hi v).isNone = true) : nbDisplay hi s v = acquireHandle s := by
  simp [nbDisplay, h0]

theorem nbDisplay_shown (hi : PyVal → PyVal) (s : NBState) (v : PyVal)
    (hnn : (hi v).isNone = false) :
    shownNow (nbDisplay hi s v) = some (hi v) := by
  obtain ⟨hd, hhd⟩ := Option.isSome_iff_exists.mp (acquireHandle_isSome s)
  simp [nbDisplay, hnn, hhd, shownNow, lastUpdate_append_same]

theorem nbDisplay_isSome (hi : PyVal → PyVal) (s : NBState) (v : PyVal) :
    (nbDisplay hi s v).displayRef.isSome = true := by
  rw [(nbDisplay_ref hi s v).1]
  exact acquireHandle_isSome s


/-! ## Claim theorems -/

/-- C5: with no selector (`None`), `detect_backend` returns a CLI backend
whenever the host interactive-shell query raises or returns no shell, and
more generally the absent-selector path returns a constructed backend
(never an error) for every outcome of the host query. -/
theorem claim5_detect_none_never_raises :
    (detect_backend .raises .pyNone = .ok .cli
      ∧ detect_backend .noShell .pyNone = .ok .cli)
    ∧ ∀ env : IPythonResult, ∃ b, detect_backend env .pyNone = .ok b := by
  refine ⟨⟨rfl, rfl⟩, ?_⟩
  intro env
  exact ⟨detectEnv env, rfl⟩

/-- C10: backend-instance acceptance is nominal: an object implementing
`display`, `clear_display` and `clear_output` that is not an
`isinstance(..., DisplayBackend)` makes `detect_backend` raise the type
error rather than pass the object through. -/
theorem claim10_nominal_acceptance (env : IPythonResult) (o : PyObject)
    (hdm : o.hasDisplayMethod = true) (hcd : o.hasClearDisplayMethod = true)
    (hco : o.hasClearOutputMethod = true)
    (hni : o.isInstanceOfDisplayBackend = false) :
    detect_backend env (.objSel o) = .typeError (typeErrorMsg o) := by
  simp [detect_backend, hni]

/-- C10 witness: a duck-typed non-instance with all three methods is
rejected with the type error. -/
theorem claim10_witness :
    detect_backend .raises
        (.objSel ⟨"<class 'Duck'>", false, true, true, true⟩)
      = .typeError (typeErrorMsg ⟨"<class 'Duck'>", false, true, true, true⟩) :=
  claim10_nominal_acceptance .raises ⟨"<class 'Duck'>", false, true, true, true⟩
    rfl rfl rfl rfl

/-- C6: every string whose lowercasing is a registered identifier resolves
through `detect_backend` to a freshly constructed backend whose class `id`
equals the lowercased string. -/
theorem claim6_lookup_case_insensitive (env : IPythonResult) (s : String)
    (h : pyLower s ∈ registryKeys) :
    ∃ b, detect_backend env (.str s) = .ok b ∧ BackendKind.id b = pyLower s := by
  obtain ⟨b, hb, hid⟩ := lookupBackend_mem (pyLower s) h
  exact ⟨b, by simp [detect_backend, hb], hid⟩

/-- C6 witness: `"SiLeNt"` resolves to the silent backend. -/
theorem claim6_witness :
    detect_backend .raises (.str "SiLeNt") = .ok .silent := by
  obtain ⟨b, hb, hid⟩ := claim6_lookup_case_insensitive .raises "SiLeNt" (by decide)
  cases b with
  | silent => exact hb
  | cli => exact absurd hid (by decide)
  | jupyter => exact absurd hid (by decide)
  | colab => exact absurd hid (by decide)

/-- C2 counterexample: the registry keys are NOT
`{"cli", "notebook", "hosted", "silent"}`: `"notebook"` and `"hosted"` do
not resolve (they raise the configuration error), while `"jupyter"` — a
string outside the claimed set — does resolve. -/
theorem claim2_counterexample :
    detect_backend .raises (.str "notebook")
        = .valueError (valueErrorMsg "notebook")
    ∧ detect_backend .raises (.str "hosted")
        = .valueError (valueErrorMsg "hosted")
    ∧ detect_backend .raises (.str "jupyter") = .ok .jupyter := by
  refine ⟨?_, ?_, ?_⟩ <;> decide

/-- C2 amended: the registry's key set is exactly
`{"cli", "jupyter", "colab", "silent"}`: a string selector resolves to a
backend through `detect_backend` (in any letter case) precisely when its
lowercasing is one of those four identifiers. -/
theorem claim2_amended_registry_keys (env : IPythonResult) :
    registryKeys = ["cli", "jupyter", "colab", "silent"]
    ∧ ∀ s : String,
        (∃ b, detect_backend env (.str s) = .ok b) ↔ pyLower s ∈ registryKeys := by
  refine ⟨rfl, ?_⟩
  intro s
  constructor
  · rintro ⟨b, hb⟩
    by_contra hmem
    have hn := lookupBackend_not_mem (pyLower s) hmem
    simp [detect_backend, hn] at hb
  · intro hmem
    obtain ⟨b, hb, _⟩ := lookupBackend_mem (pyLower s) hmem
    exact ⟨b, by simp [detect_backend, hb]⟩

/-- C2 amended witness: `"JUPYTER"` resolves since its lowercasing is a
registry key. -/
theorem claim2_witness :
    ∃ b, detect_backend .raises (.str "JUPYTER") = .ok b :=
  ((claim2_amended_registry_keys .raises).2 "JUPYTER").mpr (by decide)

theorem strContains_valueErrorMsg (bid k : String) (hk : k ∈ registryKeys) :
    strContains (valueErrorMsg bid) ("'" ++ k ++ "'") = true := by
  have hdata : (valueErrorMsg bid).data
      = ("Wrong backend id. Got ").data
        ++ (bid.data
          ++ (", expected one of " ++ pyListRepr registryKeys ++ ".").data) := by
    simp [valueErrorMsg, String.data_append, List.append_assoc]
  unfold strContains
  rw [hdata]
  apply listContains_append_right
  apply listContains_append_right
  simp only [registryKeys, backendsMap, backendsList, List.map, BackendKind.id,
    List.mem_cons, List.not_mem_nil, or_false] at hk
  rcases hk with h | h | h | h <;> subst h <;> decide

theorem strContains_typeErrorMsg (o : PyObject) (n : String)
    (hn : strContains
      "Wrong backend type. Expected None, str or DisplayBackend, got "
      n = true) :
    strContains (typeErrorMsg o) n = true := by
  have hdata : (typeErrorMsg o).data
      = ("Wrong backend type. Expected None, str or DisplayBackend, got ").data
        ++ (o.typeName.data ++ (".").data) := by
    simp [typeErrorMsg, String.data_append, List.append_assoc]
  unfold strContains at hn ⊢
  rw [hdata]
  exact listContains_append_left _ _ _ hn

/-- C7: `detect_backend` fails in exactly two ways — an unknown string
selector raises the configuration (value) error whose message contains
every valid identifier, and a selector that is neither `None`, a string,
nor a `DisplayBackend` instance raises the type error whose message names
the three accepted forms; every other input returns a backend without
raising. -/
theorem claim7_two_error_modes (env : IPythonResult) :
    (∀ s : String, lookupBackend (pyLower s) = Option.none →
        detect_backend env (.str s) = .valueError (valueErrorMsg (pyLower s))
      ∧ ∀ k ∈ registryKeys,
          strContains (valueErrorMsg (pyLower s)) ("'" ++ k ++ "'") = true)
    ∧ (∀ o : PyObject, o.isInstanceOfDisplayBackend = false →
        detect_backend env (.objSel o) = .typeError (typeErrorMsg o)
      ∧ strContains (typeErrorMsg o) "None" = true
      ∧ strContains (typeErrorMsg o) "str" = true
      ∧ strContains (typeErrorMsg o) "DisplayBackend" = true)
    ∧ (∃ b, detect_backend env .pyNone = .ok b)
    ∧ (∀ s : String, ∀ b : BackendKind, lookupBackend (pyLower s) = some b →
        detect_backend env (.str s) = .ok b)
    ∧ (∀ o : PyObject, o.isInstanceOfDisplayBackend = true →
        detect_backend env (.objSel o) = .passThrough o) := by
  refine ⟨?_, ?_, ⟨detectEnv env, rfl⟩, ?_, ?_⟩
  · intro s hs
    refine ⟨by simp [detect_backend, hs], ?_⟩
    intro k hk
    exact strContains_valueErrorMsg (pyLower s) k hk
  · intro o ho
    refine ⟨by simp [detect_backend, ho], ?_, ?_, ?_⟩
    · exact strContains_typeErrorMsg o "None" (by decide)
    · exact strContains_typeErrorMsg o "str" (by decide)
    · exact strContains_typeErrorMsg o "DisplayBackend" (by decide)
  · intro s b hb
    simp [detect_backend, hb]
  · intro o ho
    simp [detect_backend, ho]

/-- C7 witness: an unknown id raises the value error containing
`'jupyter'`; an `int` selector raises the type error; a known id returns
a backend. -/
theorem claim7_witness :
    detect_backend .raises (.str "tui") = .valueError (valueErrorMsg "tui")
    ∧ strContains (valueErrorMsg "tui") "'jupyter'" = true
    ∧ detect_backend .raises
        (.objSel ⟨"<class 'int'>", false, false, false, false⟩)
      = .typeError (typeErrorMsg ⟨"<class 'int'>", false, false, false, false⟩)
    ∧ detect_backend .raises (.str "CLI") = .ok .cli := by
  have h := claim7_two_error_modes .raises
  have e : pyLower "tui" = "tui" := by decide
  have h1 := (h.1 "tui" (by decide)).1
  have h2 := (h.1 "tui" (by decide)).2 "jupyter" (by decide)
  rw [e] at h1 h2
  have h3 := (h.2.1 ⟨"<class 'int'>", false, false, false, false⟩ rfl).1
  have h4 := h.2.2.2.1 "CLI" .cli (by decide)
  refine ⟨h1, ?_, h3, h4⟩
  rw [(by decide : ("'" ++ "jupyter" ++ "'" : String) = "'jupyter'")] at h2
  exact h2

/-- C8: `CLIBackend.display` unwraps a Styler to its underlying data and
suppresses the call when the (possibly unwrapped) value is an empty
tabular container; any remaining non-null value is rendered via its own
`show` capability when it has one and via `pprint` otherwise. -/
theorem claim8_cli_display (v : PyVal) :
    (∀ f : Frame, cli_handle_input (.styler f) = cli_handle_input (.frame f))
    ∧ ((unwrapStyler v).isEmptyTabular = true → cliDisplay v = Option.none)
    ∧ (∀ w : PyVal, cli_handle_input v = w → w.isNone = false →
        cliDisplay v
          = some (if w.hasShow then .showCall w else .pprintOut w)) := by
  refine ⟨fun f => rfl, ?_, ?_⟩
  · intro he
    cases v <;>
      simp_all [unwrapStyler, PyVal.isEmptyTabular, cliDisplay,
        cli_handle_input, PyVal.isNone]
  · intro w hw hnn
    subst hw
    simp [cliDisplay, hnn, apply_ite]

/-- C8 witness: an empty styler-wrapped frame prints nothing; an object
with a `show` capability is shown, not pprinted. -/
theorem claim8_witness :
    cliDisplay (.styler ⟨0, 2⟩) = Option.none
    ∧ cliDisplay (.obj 5 true) = some (.showCall (.obj 5 true)) := by
  refine ⟨(claim8_cli_display (.styler ⟨0, 2⟩)).2.1 (by decide), ?_⟩
  have h := (claim8_cli_display (.obj 5 true)).2.2 (.obj 5 true) rfl (by decide)
  simpa using h

/-- C1 counterexample: an empty DataFrame is an empty tabular value, yet
`JupyterBackend.display` and `ColabBackend.display` (whose
`_handle_input` does not suppress empties) push it into the output
handle, so display of an empty tabular value is not a no-op on every
backend variant. -/
theorem claim1_counterexample :
    (PyVal.frame ⟨0, 0⟩).isEmptyTabular = true
    ∧ (nbDisplay handleInputJupyter initNBState (.frame ⟨0, 0⟩)).pushes
        = [(0, Update.push (.frame ⟨0, 0⟩))]
    ∧ (nbDisplay handleInputColab initNBState (.frame ⟨0, 0⟩)).pushes
        = [(0, Update.push (.frame ⟨0, 0⟩))] := by
  refine ⟨rfl, ?_, ?_⟩ <;> decide

/-- C1 amended: for the Silent and CommandLine backends, calling
`display` with an empty tabular value renders nothing (nothing shown,
nothing printed); the Notebook-family backends do push such a value into
their output handle. -/
theorem claim1_amended (v : PyVal) (he : v.isEmptyTabular = true) :
    silentDisplay v = Option.none ∧ cliDisplay v = Option.none := by
  refine ⟨rfl, ?_⟩
  cases v <;>
    simp_all [PyVal.isEmptyTabular, cliDisplay, cli_handle_input, PyVal.isNone]

/-- C1 amended witness: an empty frame is suppressed by both silent and
CLI display. -/
theorem claim1_witness :
    silentDisplay (.frame ⟨0, 4⟩) = Option.none
    ∧ cliDisplay (.frame ⟨0, 4⟩) = Option.none :=
  claim1_amended (.frame ⟨0, 4⟩) (by decide)

/-- C3: on a Jupyter or Colab backend started fresh, the output handle is
created exactly once, on the first `display` call (the stored reference
is handle 0 and exactly one handle was ever created iff the trace
contains a `display`); every update ever pushed targets that same handle
0; and neither `clear_display` nor `clear_output` creates, discards or
replaces the stored handle reference. -/
theorem claim3_handle_created_once (hi : PyVal → PyVal)
    (hhi : hi = handleInputJupyter ∨ hi = handleInputColab)
    (ops : List NBOp) :
    ((nbRun hi initNBState ops).displayRef
        = (if hasDisp ops then some ⟨0⟩ else Option.none)
      ∧ (nbRun hi initNBState ops).nextId = (if hasDisp ops then 1 else 0))
    ∧ (∀ p ∈ (nbRun hi initNBState ops).pushes, p.1 = 0)
    ∧ (∀ s : NBState,
        (nbClearDisplay s).displayRef = s.displayRef
        ∧ (nbClearDisplay s).nextId = s.nextId
        ∧ (nbClearOutput s).displayRef = s.displayRef
        ∧ (nbClearOutput s).nextId = s.nextId) := by
  refine ⟨?_, ?_, ?_⟩
  · have h := nbRun_from_fresh hi ops initNBState rfl
    simpa [initNBState] using h
  · exact (goodNB_run hi ops initNBState goodNB_init).2
  · intro s
    exact ⟨(nbClearDisplay_ref s).1, (nbClearDisplay_ref s).2,
      (nbClearOutput_ref s).1, (nbClearOutput_ref s).2⟩

/-- C3 witness: a mixed trace with displays and clears ends with the
first handle still stored and exactly one handle ever created. -/
theorem claim3_witness :
    (nbRun handleInputJupyter initNBState
        [.clearDisp, .disp (.frame ⟨1, 1⟩), .clearDisp, .clearOut,
          .disp .pyNone]).displayRef = some ⟨0⟩
    ∧ (nbRun handleInputJupyter initNBState
        [.clearDisp, .disp (.frame ⟨1, 1⟩), .clearDisp, .clearOut,
          .disp .pyNone]).nextId = 1 := by
  have h := claim3_handle_created_once handleInputJupyter (Or.inl rfl)
    [.clearDisp, .disp (.frame ⟨1, 1⟩), .clearDisp, .clearOut, .disp .pyNone]
  exact ⟨by simpa using h.1.1, by simpa using h.1.2⟩

/-- C4: on Jupyter and Colab backends, `display(None)` after a prior
`display(v)` with `v ≠ None` leaves the whole state — and in particular
the handle's shown content — unchanged: normalization yields null, so no
update is pushed and the handle still shows the normalized `v`. -/
theorem claim4_display_none_is_noop (s : NBState) (v : PyVal)
    (hv : v.isNone = false) :
    (nbDisplay handleInputJupyter (nbDisplay handleInputJupyter s v) .pyNone
        = nbDisplay handleInputJupyter s v
      ∧ shownNow (nbDisplay handleInputJupyter s v) = some v)
    ∧ (nbDisplay handleInputColab (nbDisplay handleInputColab s v) .pyNone
        = nbDisplay handleInputColab s v
      ∧ shownNow (nbDisplay handleInputColab s v)
        = some (handleInputColab v)) := by
  constructor
  · constructor
    · have hs := nbDisplay_isSome handleInputJupyter s v
      obtain ⟨hd, hhd⟩ := Option.isSome_iff_exists.mp hs
      rw [nbDisplay_of_isNone handleInputJupyter _ .pyNone rfl,
        acquireHandle_of_some _ hd hhd]
    · exact nbDisplay_shown handleInputJupyter s v hv
  · constructor
    · have hs := nbDisplay_isSome handleInputColab s v
      obtain ⟨hd, hhd⟩ := Option.isSome_iff_exists.mp hs
      rw [nbDisplay_of_isNone handleInputColab _ .pyNone rfl,
        acquireHandle_of_some _ hd hhd]
    · exact nbDisplay_shown handleInputColab s v
        (by rw [handleInputColab_isNone]; exact hv)

/-- C4 witness: after displaying an object then `None`, the Jupyter
handle still shows the object. -/
theorem claim4_witness :
    nbDisplay handleInputJupyter
        (nbDisplay handleInputJupyter initNBState (.obj 0 false)) .pyNone
      = nbDisplay handleInputJupyter initNBState (.obj 0 false)
    ∧ shownNow (nbDisplay handleInputJupyter initNBState (.obj 0 false))
      = some (.obj 0 false) :=
  (claim4_display_none_is_noop initNBState (.obj 0 false) rfl).1

/-- C9: with a handle in place, `ColabBackend.display` of a
styler-wrapped frame pushes its rendered HTML form into the handle while
`JupyterBackend.display` pushes the styler value unmodified; on every
non-styler value both normalizations are the identity. -/
theorem claim9_styler_normalization (f : Frame) (s : NBState) (hd : DH)
    (h : s.displayRef = some hd) :
    (nbDisplay handleInputColab s (.styler f)
        = { s with pushes := s.pushes ++ [(hd.hid, Update.push (.html f))] }
      ∧ nbDisplay handleInputJupyter s (.styler f)
        = { s with pushes := s.pushes ++ [(hd.hid, Update.push (.styler f))] })
    ∧ ∀ v : PyVal, (∀ g : Frame, v ≠ .styler g) →
        handleInputColab v = v ∧ handleInputJupyter v = v := by
  constructor
  · constructor
    · simp [nbDisplay, acquireHandle_of_some s hd h, handleInputColab,
        PyVal.isNone, h]
    · simp [nbDisplay, acquireHandle_of_some s hd h, handleInputJupyter,
        PyVal.isNone, h]
  · intro v hv
    cases v
    case styler g => exact absurd rfl (hv g)
    all_goals exact ⟨rfl, rfl⟩

/-- C9 witness: concrete push of the HTML form on Colab, identity on a
plain frame. -/
theorem claim9_witness :
    nbDisplay handleInputColab ⟨some ⟨0⟩, 1, [], 0⟩ (.styler ⟨1, 2⟩)
      = ⟨some ⟨0⟩, 1, [(0, Update.push (.html ⟨1, 2⟩))], 0⟩
    ∧ handleInputColab (.frame ⟨3, 4⟩) = .frame ⟨3, 4⟩ := by
  have h := claim9_styler_normalization ⟨1, 2⟩ ⟨some ⟨0⟩, 1, [], 0⟩ ⟨0⟩ rfl
  exact ⟨by simpa using h.1.1,
    (h.2 (.frame ⟨3, 4⟩) (fun g hg => PyVal.noConfusion hg)).1⟩
